import Mathlib

/-!
Shallow embedding of the SRTM Terrain Importer add-on (`__init__.py`) and
verification of its specification.

The add-on's portable logic is embedded as follows:

* `get_tile_dimensions` — the tile geometry calculator (source lines 49-57),
  over the real numbers (Python floats are modelled as exact reals).
* `heightmap_normalized` / `create_heightmap_texture_pixels` — the
  normalization and pixel-building part of `create_heightmap_texture`
  (source lines 69-83).  Elevation samples are signed 16-bit integers
  (`numpy` dtype int16), modelled as `ℤ`; the two subtractions
  `heightmap - height_min` and `height_max - height_min` are int16
  subtractions that wrap modulo 2¹⁶, modelled by `int16_wrap`, and only
  the subsequent division promotes to float, modelled as exact `ℚ`
  arithmetic.  IEEE division by a zero divisor produces no finite defined
  value (NaN for the 0/0 case that arises here), which is modelled by
  `fdiv` returning `none`.  `numpy`'s `min`/`max` raise on an empty array,
  modelled by `List.min?`/`List.max?` returning `none`.
* `load_heightmap` — the read/reshape step of `create_terrain_from_hgt`
  (source lines 239-241): `size = int(np.sqrt(data.size))` is `Nat.sqrt`
  (exact for all realistic sizes), and `reshape((size, size))` raises
  unless `size * size` equals the element count.  The grid is kept as the
  flat row-major sample list together with its side length; min/max and
  elementwise normalization are invariant under the row-major reshape.
* `parseLatLon` — the filename coordinate extraction (source lines
  243-250).  Python's `int` applied to the digit substrings is modelled on
  basenames of length at least 7, which covers every name of the
  documented pattern `[NS]DD[EW]DDD.hgt`; a non-digit character makes
  `int` raise `ValueError`, modelled as `none`.
* `create_terrain_from_hgt` — the import pipeline (source lines 236-295)
  restricted to its computational content: reshape, parse, min/max and
  texture pixels.  A raised Python exception is `Except.error`.  The mesh
  and material calls in between (lines 252-270, 281-293) are host API
  calls with no failure condition of their own; the object transform they
  set is `plane_transform` and the shader graph they build is
  `terrain_material_links` below.
* `ImportHGTDisplacementOperator.execute` — the operator entry point
  (source lines 340-353).  The source wraps `create_terrain_from_hgt` in
  no `try`/`except`, so any exception it raises propagates out of
  `execute`; the embedding therefore just maps the pipeline's result.
* `terrain_material_links` — the shader node graph wired by
  `create_terrain_material` (source lines 85-234): the nodes in creation
  order and the links in creation order, with `dependsOn` the induced
  dataflow reachability.
-/

/-- Embeds `EARTH_RADIUS = 6378137` (source line 51), the WGS84 equatorial
radius in meters. -/
noncomputable def EARTH_RADIUS : ℝ := 6378137

/-- Embeds `get_tile_dimensions` (source lines 49-57): `math.radians(lat)`
is `lat * (π / 180)`, the north-south extent is `π * EARTH_RADIUS / 180`,
and the east-west extent scales it by the cosine of the latitude.  The
returned pair is `(ew_distance, ns_distance)`.  Total function of one
input, matching the source's lack of error conditions. -/
noncomputable def get_tile_dimensions (lat : ℝ) : ℝ × ℝ :=
  let lat_rad := lat * (Real.pi / 180)
  let ns_distance := Real.pi * EARTH_RADIUS / 180
  let ew_distance := ns_distance * Real.cos lat_rad
  (ew_distance, ns_distance)

/-- Embeds the object transform set on the imported plane (source lines
258-261): `location = (width * lon, height * lat)` and
`scale = (width, height)` with `(width, height) =
get_tile_dimensions lat`.  It depends only on the parsed coordinates,
never on the elevation grid. -/
noncomputable def plane_transform (lat lon : ℤ) : ℝ × ℝ × ℝ × ℝ :=
  ((get_tile_dimensions (lat : ℝ)).1 * (lon : ℝ),
   (get_tile_dimensions (lat : ℝ)).2 * (lat : ℝ),
   (get_tile_dimensions (lat : ℝ)).1,
   (get_tile_dimensions (lat : ℝ)).2)

/-- Models IEEE float division restricted to the values arising here: a
zero divisor yields no finite defined value (the flat-tile case divides
0 by 0, which is NaN), modelled as `none`; otherwise the exact quotient. -/
def fdiv (a b : ℚ) : Option ℚ :=
  if b = 0 then none else some (a / b)

/-- The int16 wraparound: `numpy` subtraction of two int16 values stays
int16 and wraps modulo 2¹⁶ into `[-32768, 32767]` (with only a runtime
warning on overflow). -/
def int16_wrap (z : ℤ) : ℤ :=
  (z + 32768) % 65536 - 32768

/-- Embeds `heightmap_normalized = (heightmap - height_min) /
(height_max - height_min)` with `height_min, height_max =
heightmap.min(), heightmap.max()` (source lines 73-74), elementwise over
the row-major sample list.  The grid has `numpy` dtype int16 (`'>i2'`,
source line 239), so both subtractions are int16 subtractions wrapping
modulo 2¹⁶ (`int16_wrap`); only the division then promotes to float
(`fdiv`).  `numpy` raises on `min`/`max` of an empty array
(`List.min?`/`List.max?` return `none` there). -/
def heightmap_normalized (heightmap : List ℤ) : Option (List (Option ℚ)) := do
  let height_min ← heightmap.min?
  let height_max ← heightmap.max?
  pure (heightmap.map (fun x : ℤ =>
    fdiv ((int16_wrap (x - height_min) : ℤ) : ℚ)
      ((int16_wrap (height_max - height_min) : ℤ) : ℚ)))

/-- Embeds the pixel list built in `create_heightmap_texture` (source
lines 77-81): for each normalized sample, in row-major order, the four
channels `[value, 0, 0, 1]` are appended. -/
def create_heightmap_texture_pixels (heightmap : List ℤ) : Option (List (Option ℚ)) :=
  (heightmap_normalized heightmap).map
    (fun norm => norm.flatMap (fun v => [v, some 0, some 0, some 1]))

/-- Embeds `data = np.fromfile(filepath, dtype = i2be)`, `size =
int(np.sqrt(data.size))`, `heightmap = data.reshape((size, size))`
(source lines 239-241).  The decoded big-endian 16-bit samples are the
input list; `reshape` raises `ValueError` unless `size * size` equals the
element count, and on success the grid is the same samples read
row-major with side length `size`. -/
def load_heightmap (data : List ℤ) : Option (ℕ × List ℤ) :=
  if Nat.sqrt data.length * Nat.sqrt data.length = data.length then
    some (Nat.sqrt data.length, data)
  else
    none

/-- Value of a decimal digit character, `none` on a non-digit (where
Python's `int` would raise `ValueError`). -/
def digitVal (c : Char) : Option ℕ :=
  if c.isDigit then some (c.toNat - 48) else none

/-- Python `int` on a two-character digit substring. -/
def pyInt2 (a b : Char) : Option ℕ := do
  let av ← digitVal a
  let bv ← digitVal b
  pure (10 * av + bv)

/-- Python `int` on a three-character digit substring. -/
def pyInt3 (d e f : Char) : Option ℕ := do
  let dv ← digitVal d
  let ev ← digitVal e
  let fv ← digitVal f
  pure (100 * dv + 10 * ev + fv)

/-- Embeds the coordinate extraction from the basename (source lines
243-250): `lat = int(basename[1:3])`, `lon = int(basename[4:7])`, negated
when `basename[0] == 'S'` resp. `basename[3] == 'W'`.  Defined on
basenames of length at least 7, which covers every name of the pattern
`[NS]DD[EW]DDD.hgt`; characters past position 6 are ignored exactly as
the source's slices ignore them. -/
def parseLatLon : List Char → Option (ℤ × ℤ)
  | c0 :: a :: b :: c3 :: d :: e :: f :: _ => do
    let latAbs ← pyInt2 a b
    let lonAbs ← pyInt3 d e f
    let lat : ℤ := if c0 = 'S' then -(latAbs : ℤ) else (latAbs : ℤ)
    let lon : ℤ := if c3 = 'W' then -(lonAbs : ℤ) else (lonAbs : ℤ)
    pure (lat, lon)
  | _ => none

/-- Computational result of one import: the data `create_terrain_from_hgt`
derives from the file and stores on the created object (source lines
272-273 and 287-293) together with the texture pixel list. -/
structure Terrain where
  lat : ℤ
  lon : ℤ
  side : ℕ
  dem_min : ℤ
  dem_max : ℤ
  pixels : List (Option ℚ)
deriving DecidableEq

/-- Embeds the computational content of `create_terrain_from_hgt` (source
lines 236-295) with a raised exception as `Except.error`: read and
reshape (lines 239-241, raising on a non-square element count), parse the
basename (lines 243-250, `int` raising on non-digits), take the grid's
min and max (lines 272-273, raising on an empty grid), and build the
texture pixels (line 281 via `create_heightmap_texture`).  The host mesh
and material calls in between carry no failure conditions and their
outputs are modelled by `plane_transform` and `terrain_material_links`. -/
def create_terrain_from_hgt (basename : List Char) (data : List ℤ) :
    Except String Terrain :=
  match load_heightmap data with
  | none => Except.error "cannot reshape array into square"
  | some (size, heightmap) =>
    match parseLatLon basename with
    | none => Except.error "invalid literal for int"
    | some (lat, lon) =>
      match heightmap.min?, heightmap.max? with
      | some dmin, some dmax =>
        match create_heightmap_texture_pixels heightmap with
        | some px =>
          Except.ok
            { lat := lat, lon := lon, side := size,
              dem_min := dmin, dem_max := dmax, pixels := px }
        | none => Except.error "zero-size array to reduction operation"
      | _, _ => Except.error "zero-size array to reduction operation"

/-- Result value an operator's `execute` returns to the host. -/
inductive OpResult
  | FINISHED
  | CANCELLED
deriving DecidableEq

/-- Embeds `ImportHGTDisplacementOperator.execute` (source lines 340-353):
it calls `create_terrain_from_hgt` with no surrounding `try`/`except` and
no `self.report` call, then returns `FINISHED`; any exception raised by
the pipeline therefore propagates out of `execute` unhandled, which the
embedding renders as the `Except.error` passing through. -/
def ImportHGTDisplacementOperator.execute (basename : List Char)
    (data : List ℤ) : Except String OpResult :=
  (create_terrain_from_hgt basename data).map (fun _ => OpResult.FINISHED)

/-- One `links.new(src.outputs[s], dst.inputs[t])` call in
`create_terrain_material`: source node, source socket, destination node,
destination socket. -/
structure Link where
  fromNode : ℕ
  fromSocket : String
  toNode : ℕ
  toSocket : String
deriving DecidableEq

/-- Node indices in creation order in `create_terrain_material` (source
lines 96-103 and 125-161). -/
def output_node : ℕ := 0

/-- Index of the principled BSDF node (source line 97). -/
def principled_node : ℕ := 1

/-- Index of the geometry node (source line 98). -/
def geometry_node : ℕ := 2

/-- Index of the separate-XYZ node (source line 99). -/
def separate_xyz_node : ℕ := 3

/-- Index of the map-range node (source line 100). -/
def map_range_node : ℕ := 4

/-- Index of the color-ramp node (source line 101). -/
def color_ramp_node : ℕ := 5

/-- Index of the displacement node (source line 102). -/
def displacement_node : ℕ := 6

/-- Index of the image-texture node (source line 103); its image is the
heightmap texture whose pixels are `create_heightmap_texture_pixels`
(source lines 76-81 and 105). -/
def texture_node : ℕ := 7

/-- Index of the DEM-min value node (source line 125). -/
def value_min_node : ℕ := 8

/-- Index of the DEM-max value node (source line 130). -/
def value_max_node : ℕ := 9

/-- Index of the scale-Z value node (source line 135). -/
def value_scale_z_node : ℕ := 10

/-- Index of the height-range subtract node (source line 141). -/
def math_height_range_node : ℕ := 11

/-- Index of the min-div-10 node (source line 146). -/
def math_min_div10_node : ℕ := 12

/-- Index of the max-div-10 node (source line 152). -/
def math_max_div10_node : ℕ := 13

/-- Index of the displacement-scale multiply node (source line 158). -/
def math_displacement_scale_node : ℕ := 14

/-- Embeds every `links.new` call of `create_terrain_material` in source
order (lines 164-171, 175, 180-181, 222-228). -/
def terrain_material_links : List Link :=
  [ ⟨value_min_node, "Value", math_height_range_node, "Value1"⟩,
    ⟨value_max_node, "Value", math_height_range_node, "Value0"⟩,
    ⟨value_min_node, "Value", math_min_div10_node, "Value0"⟩,
    ⟨value_max_node, "Value", math_max_div10_node, "Value0"⟩,
    ⟨math_height_range_node, "Value", math_displacement_scale_node, "Value0"⟩,
    ⟨value_scale_z_node, "Value", math_displacement_scale_node, "Value1"⟩,
    ⟨math_displacement_scale_node, "Value", displacement_node, "Scale"⟩,
    ⟨math_min_div10_node, "Value", map_range_node, "From Min"⟩,
    ⟨math_max_div10_node, "Value", map_range_node, "From Max"⟩,
    ⟨geometry_node, "Position", separate_xyz_node, "Vector"⟩,
    ⟨separate_xyz_node, "Z", map_range_node, "Value"⟩,
    ⟨map_range_node, "Result", color_ramp_node, "Fac"⟩,
    ⟨color_ramp_node, "Color", principled_node, "Base Color"⟩,
    ⟨principled_node, "BSDF", output_node, "Surface"⟩,
    ⟨texture_node, "Color", displacement_node, "Height"⟩,
    ⟨displacement_node, "Displacement", output_node, "Displacement"⟩ ]

/-- Embeds `material.displacement_method = 'DISPLACEMENT'` (source lines
231-232, set for both Cycles and EEVEE): the material's displacement
output displaces the rendered surface geometry, not merely the shading
normal. -/
def material_displacement_method : String := "DISPLACEMENT"

/-- Source nodes of the links feeding node `n` in the graph. -/
def incomingNodes (links : List Link) (n : ℕ) : List ℕ :=
  (links.filter (fun l => l.toNode == n)).map (fun l => l.fromNode)

/-- Source nodes of the links feeding input socket `sock` of node `n`. -/
def socketIncoming (links : List Link) (n : ℕ) (sock : String) : List ℕ :=
  (links.filter (fun l => l.toNode == n && l.toSocket == sock)).map
    (fun l => l.fromNode)

/-- Fuelled dataflow reachability: `dependsOn links fuel n src` holds when
the value produced at node `n` depends, through a chain of at most `fuel`
links, on node `src`. -/
def dependsOn (links : List Link) : ℕ → ℕ → ℕ → Bool
  | 0, n, src => n == src
  | fuel + 1, n, src =>
    n == src || (incomingNodes links n).any (fun p => dependsOn links fuel p src)

/-! Helper lemmas shared by the claim theorems. -/

/-- Specification of `List.min?` on integers: a returned value is a member
and a lower bound. -/
theorem list_min?_spec {l : List ℤ} {m : ℤ} (h : l.min? = some m) :
    m ∈ l ∧ ∀ x ∈ l, m ≤ x := by
  have anti : Std.Antisymm (fun x1 x2 : ℤ => x1 ≤ x2) :=
    ⟨fun h1 h2 => le_antisymm h1 h2⟩
  rw [List.min?_eq_some_iff] at h
  · exact h
  · exact fun a => le_refl a
  · exact fun a b => min_choice a b
  · exact fun a b c => le_min_iff

/-- Specification of `List.max?` on integers: a returned value is a member
and an upper bound. -/
theorem list_max?_spec {l : List ℤ} {M : ℤ} (h : l.max? = some M) :
    M ∈ l ∧ ∀ x ∈ l, x ≤ M := by
  have anti : Std.Antisymm (fun x1 x2 : ℤ => x1 ≤ x2) :=
    ⟨fun h1 h2 => le_antisymm h1 h2⟩
  rw [List.max?_eq_some_iff] at h
  · exact h
  · exact fun a => le_refl a
  · exact fun a b => max_choice a b
  · exact fun a b c => max_le_iff

/-- Evaluation of the integer square root at 2. -/
theorem sqrt_two_eq : Nat.sqrt 2 = 1 :=
  (Nat.eq_sqrt.mpr (by norm_num)).symm

/-- Evaluation of the integer square root at 4. -/
theorem sqrt_four_eq : Nat.sqrt 4 = 2 :=
  (Nat.eq_sqrt.mpr (by norm_num)).symm

/-- Evaluation of the integer square root at `1200² + 1`. -/
theorem sqrt_1440001_eq : Nat.sqrt (1200 * 1200 + 1) = 1200 :=
  Nat.sqrt_add_eq 1200 (by norm_num)

/-- Running the normalizer once min and max are known. -/
theorem heightmap_normalized_run {h : List ℤ} {m M : ℤ}
    (hm : h.min? = some m) (hM : h.max? = some M) :
    heightmap_normalized h =
      some (h.map (fun x : ℤ =>
        fdiv ((int16_wrap (x - m) : ℤ) : ℚ) ((int16_wrap (M - m) : ℤ) : ℚ))) := by
  simp [heightmap_normalized, hm, hM]

/-- The int16 wraparound is the identity on values already in range. -/
theorem int16_wrap_eq_self {z : ℤ} (h0 : -32768 ≤ z) (h1 : z ≤ 32767) :
    int16_wrap z = z := by
  simp only [int16_wrap]
  omega

/-- C1: for every latitude φ in degrees, `get_tile_dimensions` returns a
pair whose north-south component is the constant `π * 6378137 / 180`,
independent of φ, and whose east-west component is that constant times
the cosine of the latitude. -/
theorem C1_get_tile_dimensions_formula (φ ψ : ℝ) :
    (get_tile_dimensions φ).2 = Real.pi * 6378137 / 180 ∧
    (get_tile_dimensions φ).2 = (get_tile_dimensions ψ).2 ∧
    (get_tile_dimensions φ).1 =
      (get_tile_dimensions φ).2 * Real.cos (φ * (Real.pi / 180)) :=
  ⟨rfl, rfl, rfl⟩

/-- C10: `get_tile_dimensions` is invariant under negation of the
latitude, since the east-west scaling uses the cosine of the latitude. -/
theorem C10_hemisphere_symmetry (φ : ℝ) :
    get_tile_dimensions (-φ) = get_tile_dimensions φ := by
  simp [get_tile_dimensions, neg_mul, Real.cos_neg]

/-- C2 counterexample: the grid `[-32768, 0, 32767]` has minimum
strictly below maximum, yet its normalized copy is `[0, 32768, 1]`: the
int16 subtractions wrap (`max - min = 65535` wraps to `-1`,
`0 - min = 32768` wraps to `-32768`), so an entry lies far outside the
interval from 0 to 1 and the maximum is not 1. -/
theorem C2_counterexample :
    heightmap_normalized [-32768, 0, 32767] =
      some [some 0, some 32768, some 1] ∧
    List.min? [(-32768 : ℤ), 0, 32767] = some (-32768) ∧
    List.max? [(-32768 : ℤ), 0, 32767] = some 32767 ∧
    (-32768 : ℤ) < 32767 ∧
    ¬ ((32768 : ℚ) ≤ 1) := by
  refine ⟨?_, by decide, by decide, by decide, by norm_num⟩
  rw [heightmap_normalized_run
    (show List.min? [(-32768 : ℤ), 0, 32767] = some (-32768) by decide)
    (show List.max? [(-32768 : ℤ), 0, 32767] = some 32767 by decide)]
  norm_num [fdiv, int16_wrap]

/-- C2 amended: for every elevation grid whose minimum sample is strictly
below its maximum sample and whose spread `max - min` is at most 32767
(so that no int16 subtraction wraps), the normalized copy attains 0,
attains 1, and every entry is a defined value in the interval from 0 to
1; for larger spreads the wrap refutes this (see the counterexample). -/
theorem C2_normalization_unit_range (h : List ℤ) (m M : ℤ)
    (hm : h.min? = some m) (hM : h.max? = some M) (hlt : m < M)
    (hspread : M - m ≤ 32767) :
    ∃ l, heightmap_normalized h = some l ∧
      some (0 : ℚ) ∈ l ∧ some (1 : ℚ) ∈ l ∧
      ∀ o ∈ l, ∃ q, o = some q ∧ 0 ≤ q ∧ q ≤ 1 := by
  obtain ⟨hmem_m, hmin⟩ := list_min?_spec hm
  obtain ⟨hmem_M, hmax⟩ := list_max?_spec hM
  have hwrapden : int16_wrap (M - m) = M - m :=
    int16_wrap_eq_self (by omega) hspread
  have hMm : (0 : ℤ) < M - m := by omega
  have hden : (0 : ℚ) < ((M - m : ℤ) : ℚ) := by exact_mod_cast hMm
  have hq : (m : ℚ) < (M : ℚ) := by exact_mod_cast hlt
  have hden' : (M : ℚ) - (m : ℚ) ≠ 0 := sub_ne_zero.mpr (ne_of_gt hq)
  refine ⟨h.map (fun x : ℤ =>
      fdiv ((int16_wrap (x - m) : ℤ) : ℚ) ((int16_wrap (M - m) : ℤ) : ℚ)),
    heightmap_normalized_run hm hM, ?_, ?_, ?_⟩
  · refine List.mem_map.mpr ⟨m, hmem_m, ?_⟩
    have hw0 : int16_wrap (m - m) = 0 := by rw [sub_self]; decide
    rw [hw0, hwrapden]
    simp [fdiv, hden']
  · refine List.mem_map.mpr ⟨M, hmem_M, ?_⟩
    rw [hwrapden]
    simp [fdiv, hden', div_self]
  · intro o ho
    obtain ⟨x, hx, rfl⟩ := List.mem_map.mp ho
    have hxm := hmin x hx
    have hxM := hmax x hx
    have hwx : int16_wrap (x - m) = x - m :=
      int16_wrap_eq_self (by omega) (by omega)
    have h0 : (0 : ℚ) ≤ ((x - m : ℤ) : ℚ) := by
      exact_mod_cast (show (0 : ℤ) ≤ x - m by omega)
    have h1 : ((x - m : ℤ) : ℚ) ≤ ((M - m : ℤ) : ℚ) := by
      exact_mod_cast (show x - m ≤ M - m by omega)
    refine ⟨((x - m : ℤ) : ℚ) / ((M - m : ℤ) : ℚ), ?_, ?_, ?_⟩
    · rw [hwx, hwrapden]
      simp [fdiv, hden']
    · exact div_nonneg h0 (le_of_lt hden)
    · exact (div_le_one hden).mpr h1

/-- Witness for the amended C2 at the concrete grid `[0, 2, 1]`. -/
theorem C2_witness :
    ∃ l, heightmap_normalized [0, 2, 1] = some l ∧
      some (0 : ℚ) ∈ l ∧ some (1 : ℚ) ∈ l ∧
      ∀ o ∈ l, ∃ q, o = some q ∧ 0 ≤ q ∧ q ≤ 1 :=
  C2_normalization_unit_range [0, 2, 1] 0 2 (by decide) (by decide) (by decide)
    (by decide)

/-- C4: when the grid's minimum equals its maximum (flat tile), the
normalization divides by the zero divisor max minus min, so every entry
of the result is undefined (NaN) rather than any explicitly defined
value; the source has no flat-tile branch. -/
theorem C4_flat_tile_undefined (h : List ℤ) (m : ℤ)
    (hm : h.min? = some m) (hM : h.max? = some m) :
    ((m : ℚ) - (m : ℚ) = 0) ∧
    ∃ l, heightmap_normalized h = some l ∧ l.length = h.length ∧
      l ≠ [] ∧ ∀ o ∈ l, o = none := by
  have hne : h ≠ [] := by
    intro hcontra
    rw [hcontra] at hm
    simp at hm
  refine ⟨sub_self _, h.map (fun x : ℤ =>
      fdiv ((int16_wrap (x - m) : ℤ) : ℚ) ((int16_wrap (m - m) : ℤ) : ℚ)),
    heightmap_normalized_run hm hM, by simp, ?_, ?_⟩
  · simp [hne]
  · intro o ho
    obtain ⟨x, hx, rfl⟩ := List.mem_map.mp ho
    have hw0 : int16_wrap 0 = 0 := by decide
    simp [fdiv, hw0]

/-- Witness for C4 at the concrete flat grid `[5, 5]`. -/
theorem C4_witness :
    ((5 : ℚ) - (5 : ℚ) = 0) ∧
    ∃ l, heightmap_normalized [5, 5] = some l ∧ l.length = [5, 5].length ∧
      l ≠ [] ∧ ∀ o ∈ l, o = none := by
  have h := C4_flat_tile_undefined [5, 5] 5 (by decide) (by decide)
  simpa using h

/-- C3: the loader succeeds, reshaping into a square grid, exactly when
the element count is a perfect square, and rejects every other count; in
particular an input of `1200² + 1` samples is rejected. -/
theorem C3_loader_square_check (data : List ℤ) :
    ((∃ k, k * k = data.length) ↔
      ∃ side, load_heightmap data = some (side, data) ∧
        side * side = data.length) ∧
    (data.length = 1200 * 1200 + 1 → load_heightmap data = none) := by
  constructor
  · constructor
    · intro hsq
      have hs := (Nat.exists_mul_self data.length).mp hsq
      exact ⟨Nat.sqrt data.length, by simp [load_heightmap, hs], hs⟩
    · rintro ⟨side, _, hside⟩
      exact ⟨side, hside⟩
  · intro hlen
    simp only [load_heightmap, hlen, sqrt_1440001_eq]
    norm_num


/-- Witness for C3 at a concrete input of `1200² + 1` samples. -/
theorem C3_witness :
    load_heightmap (List.replicate (1200 * 1200 + 1) (0 : ℤ)) = none :=
  (C3_loader_square_check (List.replicate (1200 * 1200 + 1) (0 : ℤ))).2
    (by rw [List.length_replicate])

/-- Digit values returned by `digitVal` are at most 9. -/
theorem digitVal_le_nine {c : Char} {v : ℕ} (h : digitVal c = some v) : v ≤ 9 := by
  by_cases hdig : c.isDigit
  · simp [digitVal, hdig] at h
    simp [Char.isDigit] at hdig
    have h2 : c.val.toNat ≤ (57 : UInt32).toNat := hdig.2
    have h57 : (57 : UInt32).toNat = 57 := rfl
    have hc : c.toNat = c.val.toNat := rfl
    omega
  · simp [digitVal, hdig] at h

/-- Evaluation of `parseLatLon` on a basename of the documented shape with
digit fields. -/
theorem parseLatLon_eval (c0 c3 a b d e f : Char) (rest : List Char)
    (av bv dv ev fv : ℕ)
    (ha : digitVal a = some av) (hb : digitVal b = some bv)
    (hd : digitVal d = some dv) (he : digitVal e = some ev)
    (hf : digitVal f = some fv) :
    parseLatLon (c0 :: a :: b :: c3 :: d :: e :: f :: rest) =
      some (if c0 = 'S' then -((10 * av + bv : ℕ) : ℤ) else ((10 * av + bv : ℕ) : ℤ),
            if c3 = 'W' then -((100 * dv + 10 * ev + fv : ℕ) : ℤ)
            else ((100 * dv + 10 * ev + fv : ℕ) : ℤ)) := by
  simp [parseLatLon, pyInt2, pyInt3, ha, hb, hd, he, hf]

/-- C5: on every basename of the form `[NS]DD[EW]DDD.hgt`, the parser
returns the two-digit integer at positions 1-2 as the latitude, negated
exactly when position 0 is `S`, and the three-digit integer at positions
4-6 as the longitude, negated exactly when position 3 is `W`. -/
theorem C5_parse_filename (c0 c3 a b d e f : Char) (rest : List Char)
    (av bv dv ev fv : ℕ)
    (ha : digitVal a = some av) (hb : digitVal b = some bv)
    (hd : digitVal d = some dv) (he : digitVal e = some ev)
    (hf : digitVal f = some fv) :
    parseLatLon (c0 :: a :: b :: c3 :: d :: e :: f :: rest) =
      some (if c0 = 'S' then -((10 * av + bv : ℕ) : ℤ) else ((10 * av + bv : ℕ) : ℤ),
            if c3 = 'W' then -((100 * dv + 10 * ev + fv : ℕ) : ℤ)
            else ((100 * dv + 10 * ev + fv : ℕ) : ℤ)) :=
  parseLatLon_eval c0 c3 a b d e f rest av bv dv ev fv ha hb hd he hf

/-- Witness for C5: the spec's example `N37W122.hgt` parses to latitude
`+37` and longitude `-122`. -/
theorem C5_witness :
    parseLatLon ['N', '3', '7', 'W', '1', '2', '2', '.', 'h', 'g', 't'] =
      some (37, -122) := by
  have h := C5_parse_filename 'N' 'W' '3' '7' '1' '2' '2' ['.', 'h', 'g', 't']
    3 7 1 2 2 (by decide) (by decide) (by decide) (by decide) (by decide)
  rw [h]
  decide

/-- C6 counterexample: the basename `N99E181.hgt` is accepted end to end
by the import pipeline (with a one-sample grid), yet the parsed latitude
99 exceeds 90 and the parsed longitude 181 exceeds 180; the source checks
no coordinate range. -/
theorem C6_counterexample :
    (∃ t, create_terrain_from_hgt
        ['N', '9', '9', 'E', '1', '8', '1', '.', 'h', 'g', 't'] [7] =
        Except.ok t ∧ t.lat = 99 ∧ t.lon = 181) ∧
    parseLatLon ['N', '9', '9', 'E', '1', '8', '1', '.', 'h', 'g', 't'] =
      some (99, 181) ∧
    ¬ ((99 : ℤ) ≤ 90 ∧ (181 : ℤ) ≤ 180) := by
  refine ⟨⟨_, rfl, rfl, rfl⟩, rfl, by decide⟩

/-- C6 amended: the parser bounds that actually follow from the two-digit
and three-digit fields are latitude within `[-99, 99]` and longitude
within `[-999, 999]`; the source never enforces `[-90, 90]` or
`[-180, 180]`. -/
theorem C6_parse_bounds (s : List Char) (lat lon : ℤ)
    (h : parseLatLon s = some (lat, lon)) :
    -99 ≤ lat ∧ lat ≤ 99 ∧ -999 ≤ lon ∧ lon ≤ 999 := by
  cases s with
  | nil => exact Option.noConfusion h
  | cons c0 t0 =>
  cases t0 with
  | nil => exact Option.noConfusion h
  | cons a t1 =>
  cases t1 with
  | nil => exact Option.noConfusion h
  | cons b t2 =>
  cases t2 with
  | nil => exact Option.noConfusion h
  | cons c3 t3 =>
  cases t3 with
  | nil => exact Option.noConfusion h
  | cons d t4 =>
  cases t4 with
  | nil => exact Option.noConfusion h
  | cons e t5 =>
  cases t5 with
  | nil => exact Option.noConfusion h
  | cons f rest =>
  cases ha : digitVal a with
  | none => simp [parseLatLon, pyInt2, ha] at h
  | some av =>
  cases hb : digitVal b with
  | none => simp [parseLatLon, pyInt2, ha, hb] at h
  | some bv =>
  cases hd : digitVal d with
  | none => simp [parseLatLon, pyInt2, pyInt3, ha, hb, hd] at h
  | some dv =>
  cases he : digitVal e with
  | none => simp [parseLatLon, pyInt2, pyInt3, ha, hb, hd, he] at h
  | some ev =>
  cases hf : digitVal f with
  | none => simp [parseLatLon, pyInt2, pyInt3, ha, hb, hd, he, hf] at h
  | some fv =>
  have hav := digitVal_le_nine ha
  have hbv := digitVal_le_nine hb
  have hdv := digitVal_le_nine hd
  have hev := digitVal_le_nine he
  have hfv := digitVal_le_nine hf
  rw [parseLatLon_eval c0 c3 a b d e f rest av bv dv ev fv ha hb hd he hf] at h
  simp only [Option.some.injEq, Prod.mk.injEq] at h
  obtain ⟨hlat, hlon⟩ := h
  refine ⟨?_, ?_, ?_, ?_⟩
  · rw [← hlat]
    split <;> omega
  · rw [← hlat]
    split <;> omega
  · rw [← hlon]
    split <;> omega
  · rw [← hlon]
    split <;> omega

/-- Witness for the amended C6 at the concrete basename `N37W122.hgt`. -/
theorem C6_witness :
    -99 ≤ (37 : ℤ) ∧ (37 : ℤ) ≤ 99 ∧ -999 ≤ (-122 : ℤ) ∧ (-122 : ℤ) ≤ 999 :=
  C6_parse_bounds ['N', '3', '7', 'W', '1', '2', '2', '.', 'h', 'g', 't'] 37 (-122)
    (by decide)

/-- C7 counterexample: on a malformed two-sample input, the malformed
input error raised inside `create_terrain_from_hgt` passes straight out
of the operator's `execute`, which wraps the call in no handler and makes
no report call: `execute` yields the propagated error, not an operator
result. -/
theorem C7_counterexample :
    ImportHGTDisplacementOperator.execute
      ['N', '3', '7', 'W', '1', '2', '2', '.', 'h', 'g', 't'] [0, 0] =
      Except.error "cannot reshape array into square" := by
  have hload : load_heightmap [(0 : ℤ), 0] = none := by
    simp [load_heightmap, sqrt_two_eq]
  simp [ImportHGTDisplacementOperator.execute, create_terrain_from_hgt, hload,
    Except.map]

/-- C7 amended: for every input whose element count is not a perfect
square, the malformed-input error propagates unhandled out of
`ImportHGTDisplacementOperator.execute`; the source contains no handler
or report call converting it into a reported operator result. -/
theorem C7_error_propagates_unhandled (basename : List Char) (data : List ℤ)
    (h : ¬ ∃ k, k * k = data.length) :
    ImportHGTDisplacementOperator.execute basename data =
      Except.error "cannot reshape array into square" := by
  have hsq : Nat.sqrt data.length * Nat.sqrt data.length ≠ data.length := fun hc =>
    h ((Nat.exists_mul_self data.length).mpr hc)
  simp [ImportHGTDisplacementOperator.execute, create_terrain_from_hgt,
    load_heightmap, hsq, Except.map]

/-- Witness for the amended C7 at a concrete three-sample input. -/
theorem C7_witness :
    ImportHGTDisplacementOperator.execute
      ['S', '0', '1', 'E', '0', '0', '2', '.', 'h', 'g', 't'] [0, 0, 0] =
      Except.error "cannot reshape array into square" :=
  C7_error_propagates_unhandled
    ['S', '0', '1', 'E', '0', '0', '2', '.', 'h', 'g', 't'] [0, 0, 0]
    (by simpa using @Nat.not_exists_sq 1 3 (by norm_num) (by norm_num))

/-- C9: the empty input passes the reshape check as a 0-by-0 grid — the
spec's only defined malformedness test does not reject it — yet the
whole import still fails, because the minimum and maximum of the empty
grid are undefined (the reduction raises). -/
theorem C9_empty_input_fails_after_square_check :
    load_heightmap ([] : List ℤ) = some (0, []) ∧
    create_terrain_from_hgt ['N', '3', '7', 'W', '1', '2', '2', '.', 'h', 'g', 't']
      ([] : List ℤ) = Except.error "zero-size array to reduction operation" :=
  ⟨rfl, rfl⟩

/-- C8 counterexample: the image texture holding the normalized heightmap
feeds the displacement node's Height input, the displacement node is the
sole source of the material output's Displacement socket, and the
material uses true displacement, so the normalized copy drives the
rendered terrain geometry rather than colour alone; shown with the
normalized values of the concrete grid `[0, 2, 1]`. -/
theorem C8_counterexample :
    socketIncoming terrain_material_links output_node "Displacement" =
      [displacement_node] ∧
    dependsOn terrain_material_links 16 displacement_node texture_node = true ∧
    material_displacement_method = "DISPLACEMENT" ∧
    heightmap_normalized [0, 2, 1] = some [some 0, some 1, some (1/2 : ℚ)] := by
  refine ⟨by decide, by decide, rfl, ?_⟩
  rw [heightmap_normalized_run (show List.min? [0, 2, 1] = some 0 by decide)
    (show List.max? [0, 2, 1] = some 2 by decide)]
  norm_num [fdiv, int16_wrap]

/-- C8 amended: the normalized heightmap determines the texture pixels,
and that texture node reaches the displacement node, the only input of
the material output's Displacement socket, under displacement method
DISPLACEMENT; so the normalized copy is used for display encoding and for
the render-time displacement of the terrain surface, while the mesh
transform (`plane_transform`) uses only the parsed coordinates. -/
theorem C8_normalized_drives_displacement (h : List ℤ) (l : List (Option ℚ))
    (hn : heightmap_normalized h = some l) :
    create_heightmap_texture_pixels h =
      some (l.flatMap (fun v => [v, some 0, some 0, some 1])) ∧
    socketIncoming terrain_material_links output_node "Displacement" =
      [displacement_node] ∧
    dependsOn terrain_material_links 16 displacement_node texture_node = true ∧
    material_displacement_method = "DISPLACEMENT" := by
  refine ⟨?_, by decide, by decide, rfl⟩
  simp [create_heightmap_texture_pixels, hn]

/-- Witness for the amended C8 at the concrete grid `[0, 2, 1]`. -/
theorem C8_witness :
    create_heightmap_texture_pixels [0, 2, 1] =
      some [some 0, some 0, some 0, some 1,
            some 1, some 0, some 0, some 1,
            some (1/2 : ℚ), some 0, some 0, some 1] ∧
    socketIncoming terrain_material_links output_node "Displacement" =
      [displacement_node] ∧
    dependsOn terrain_material_links 16 displacement_node texture_node = true ∧
    material_displacement_method = "DISPLACEMENT" := by
  have hn : heightmap_normalized [0, 2, 1] =
      some [some 0, some 1, some (1/2 : ℚ)] := by
    rw [heightmap_normalized_run (show List.min? [0, 2, 1] = some 0 by decide)
      (show List.max? [0, 2, 1] = some 2 by decide)]
    norm_num [fdiv, int16_wrap]
  exact C8_normalized_drives_displacement [0, 2, 1]
    [some 0, some 1, some (1/2 : ℚ)] hn
